import Mathlib

/-!
Shallow embedding of the lwfm job-status core: the canonical status enumeration,
the `JobContext` lineage record and the `JobStatus` observation record from
`src/lwfm/base/JobStatus.py`, together with a model of the Job Status Sentinel's
trigger registry and evaluator (whose server-side code is not among the source
files; only its HTTP client is — that part is modelled from the spec, §4.4).

Modelling conventions:
* the dynamic attribute bag of `LwfmBase` (string-keyed `_setArg`/`_getArg`)
  becomes a structure with one named field per enum key; a key that a
  constructor never sets is an `Option` field holding `none`;
* `_IdGenerator.generateId()` (a fresh uuid) becomes an explicit `newId`
  argument threaded into the constructor;
* `datetime` values are modelled as their instant: the signed count of
  microseconds since the Unix epoch (an `Int`); the float millisecond value
  `t.timestamp() * 1000` stored by `setEmitTime`/`setReceivedTime` is kept
  exactly (as the microsecond count), and Python's `int(...)` truncation
  toward zero of that exact millisecond value is `Int.tdiv us 1000`
  (T-division); `datetime.utcnow()` becomes an explicit `now` argument;
* `logging.error(...)` diagnostics are returned as an `Option String`
  alongside the new state, so that "records a diagnostic, never raises"
  is visible in the type.
-/

/-- The canonical set of status codes (`JobStatusValues`, JobStatus.py lines 46-54). -/
inductive JobStatusValues where
  | UNKNOWN
  | PENDING
  | RUNNING
  | INFO
  | FINISHING
  | COMPLETE
  | FAILED
  | CANCELLED
deriving DecidableEq, Repr

/-- The `.value` string of each enum member (the member names double as the strings). -/
def JobStatusValues.value : JobStatusValues → String
  | .UNKNOWN => "UNKNOWN"
  | .PENDING => "PENDING"
  | .RUNNING => "RUNNING"
  | .INFO => "INFO"
  | .FINISHING => "FINISHING"
  | .COMPLETE => "COMPLETE"
  | .FAILED => "FAILED"
  | .CANCELLED => "CANCELLED"

/-- `JobStatusValues.isTerminal(self, stat)` (lines 56-64): true iff `stat` is
`COMPLETE`, `FAILED` or `CANCELLED`.  The `self` receiver is only used to name
the enum constants, so it is dropped; the `except` arm is dead (enum equality
comparison cannot raise), so the function is total. -/
def JobStatusValues.isTerminal (stat : JobStatusValues) : Bool :=
  stat = JobStatusValues.COMPLETE || stat = JobStatusValues.FAILED
    || stat = JobStatusValues.CANCELLED

/-- `JobContext` (JobStatus.py lines 87-200): the identity / lineage record.
Fields are the `_JobStatusFields` keys `JobContext.__init__` can populate;
`setId`/`group`/`user` are never set by the constructor, hence `Option`. -/
structure JobContext where
  id : String
  nativeId : String
  parentJobId : String
  originJobId : String
  jobSetId : Option String
  name : String
  siteName : String
  computeType : String
  group : Option String
  user : Option String
deriving DecidableEq, Repr

/-- `JobContext.__init__(self, parentContext=None)` (lines 112-124).
`newId` stands for the generated `_IdGenerator.generateId()` uuid.
Note: with a parent, the code copies the parent's own `parentJobId` and
`originJobId` (`parentContext.getParentJobId()`), not the parent's `id`. -/
def JobContext.init (newId : String) (parentContext : Option JobContext) : JobContext :=
  { id := newId
    nativeId := newId
    parentJobId := match parentContext with
      | some p => p.parentJobId
      | none => ""
    originJobId := match parentContext with
      | some p => p.originJobId
      | none => newId
    jobSetId := none
    name := newId
    siteName := ""
    computeType := ""
    group := none
    user := none }

/-- `JobStatus` (JobStatus.py lines 206-397): one observation of a job's state.
`emitTime`/`receivedTime` hold the instant given to the setter, in microseconds
since the epoch (`none` when the field was never set — an absent bag key). -/
structure JobStatus where
  jobContext : JobContext
  statusMap : List (String × JobStatusValues)
  status : JobStatusValues
  nativeStatus : Option String
  emitTime : Option Int
  receivedTime : Option Int
  nativeInfo : Option String
deriving DecidableEq, Repr

/-- The default native-to-canonical map set by `JobStatus.__init__` (lines 248-257). -/
def defaultStatusMap : List (String × JobStatusValues) :=
  [("UNKNOWN", JobStatusValues.UNKNOWN),
   ("PENDING", JobStatusValues.PENDING),
   ("RUNNING", JobStatusValues.RUNNING),
   ("INFO", JobStatusValues.INFO),
   ("FINISHING", JobStatusValues.FINISHING),
   ("COMPLETE", JobStatusValues.COMPLETE),
   ("FAILED", JobStatusValues.FAILED),
   ("CANCELLED", JobStatusValues.CANCELLED)]

/-- `JobStatus.__init__(self, jobContext)` (lines 241-259): when `jobContext` is
`None` a fresh seminal `JobContext` is synthesized (`newId` is its generated id);
the default status map is installed, `receivedTime` is stamped with
`datetime.utcnow()` (the `now` argument) and the status is set to `UNKNOWN`. -/
def JobStatus.init (newId : String) (jobContext : Option JobContext) (now : Int) : JobStatus :=
  { jobContext := jobContext.getD (JobContext.init newId none)
    statusMap := defaultStatusMap
    status := JobStatusValues.UNKNOWN
    nativeStatus := none
    emitTime := none
    receivedTime := some now
    nativeInfo := none }

/-- `JobStatus.isTerminal(self)` (lines 358-359): delegates to
`JobStatusValues.isTerminal` on the current canonical status. -/
def JobStatus.isTerminal (s : JobStatus) : Bool :=
  s.status.isTerminal

/-- `JobStatus.mapNativeStatus(self)` (lines 289-294): looks the native status
string up in `statusMap`; the `except` arm (absent key, or native status never
set) logs a diagnostic and falls back to `UNKNOWN`.  Returns the new state and
the diagnostic, if any; it is a total function — no exception escapes. -/
def JobStatus.mapNativeStatus (s : JobStatus) : JobStatus × Option String :=
  match s.nativeStatus.bind (fun k => s.statusMap.lookup k) with
  | some v => ({ s with status := v }, none)
  | none =>
      ({ s with status := JobStatusValues.UNKNOWN },
       some "Unable to map the native status to canonical")

/-- `JobStatus.setNativeStatusStr(self, status)` (lines 282-284): records the
native string, then remaps the canonical status. -/
def JobStatus.setNativeStatusStr (s : JobStatus) (status : String) : JobStatus × Option String :=
  JobStatus.mapNativeStatus { s with nativeStatus := some status }

/-- `JobStatus.setEmitTime(self, emitTime)` (lines 302-303): stores
`emitTime.timestamp() * 1000` — the instant in milliseconds; kept exactly here
as the microsecond count `emitT`. -/
def JobStatus.setEmitTime (s : JobStatus) (emitT : Int) : JobStatus :=
  { s with emitTime := some emitT }

/-- `JobStatus.getEmitTime(self)` (lines 305-311): `ms = int(stored)` (truncation
toward zero of the stored millisecond value, i.e. `Int.tdiv us 1000` on the exact
microsecond count), then rebuilds the instant as `ms // 1000` seconds plus
`ms % 1000 * 1000` microseconds (Python `//`/`%` floor; for the positive
divisor 1000 that is `Int.ediv`/`Int.emod`).
The `except` arm (field never set) returns `datetime.now()` — the `now` argument. -/
def JobStatus.getEmitTime (s : JobStatus) (now : Int) : Int :=
  match s.emitTime with
  | some us =>
      let ms := Int.tdiv us 1000
      Int.ediv ms 1000 * 1000000 + Int.emod ms 1000 * 1000
  | none => now

/-- `JobStatus.setReceivedTime(self, receivedTime)` (lines 313-314): same storage
rule as `setEmitTime`. -/
def JobStatus.setReceivedTime (s : JobStatus) (receivedT : Int) : JobStatus :=
  { s with receivedTime := some receivedT }

/-- `JobStatus.getReceivedTime(self)` (lines 316-318): same read-back rule as
`getEmitTime`, but with no `try` — an unset field raises, modelled as `none`. -/
def JobStatus.getReceivedTime (s : JobStatus) : Option Int :=
  s.receivedTime.map (fun us =>
    let ms := Int.tdiv us 1000
    Int.ediv ms 1000 * 1000000 + Int.emod ms 1000 * 1000)

/-- Reading back a stored millisecond count as `ms // 1000` seconds plus
`ms % 1000 * 1000` microseconds reproduces exactly `ms` milliseconds. -/
theorem ediv_emod_millis (ms : Int) :
    Int.ediv ms 1000 * 1000000 + Int.emod ms 1000 * 1000 = 1000 * ms := by
  show ms / 1000 * 1000000 + ms % 1000 * 1000 = 1000 * ms
  omega

/-- C3: a `JobContext` constructed with no parent has empty `parentJobId` and
is its own originator (`originJobId = id`). -/
theorem jobContext_seminal (newId : String) :
    (JobContext.init newId none).parentJobId = ""
    ∧ (JobContext.init newId none).originJobId = (JobContext.init newId none).id :=
  ⟨rfl, rfl⟩

/-- C2: in a chain J1 → J2 → J3 (J2 parented on J1, J3 parented on J2, J1
seminal), J3's `originJobId` is J1's own id: the constructor copies the
parent's `originJobId`, so the seminal origin propagates down the chain. -/
theorem jobContext_origin_propagates (i1 i2 i3 : String) :
    (JobContext.init i3
        (some (JobContext.init i2 (some (JobContext.init i1 none))))).originJobId
      = (JobContext.init i1 none).id :=
  rfl

/-- C1: the code does NOT record the given parent's id as the child's
`parentJobId` — chaining a child onto the seminal parent with id `"p"` stores
`parentJobId = ""` (the parent's own `parentJobId`), which differs from the
parent's id `"p"`; the spec flags this as the likely defect. -/
theorem jobContext_child_parent_divergence :
    (JobContext.init "c" (some (JobContext.init "p" none))).parentJobId = ""
    ∧ (JobContext.init "p" none).id = "p"
    ∧ (JobContext.init "c" (some (JobContext.init "p" none))).parentJobId
        ≠ (JobContext.init "p" none).id := by
  refine ⟨rfl, rfl, ?_⟩
  decide

/-- C4: `JobStatus.isTerminal` is true iff the canonical status is `COMPLETE`,
`FAILED` or `CANCELLED`; it is false for the five other values, whatever the
rest of the record holds (in particular after an `UNKNOWN` mapping result). -/
theorem jobStatus_isTerminal_iff (s : JobStatus) :
    s.isTerminal = true ↔
      (s.status = JobStatusValues.COMPLETE ∨ s.status = JobStatusValues.FAILED
        ∨ s.status = JobStatusValues.CANCELLED) := by
  cases h : s.status <;>
    simp [JobStatus.isTerminal, JobStatusValues.isTerminal, h]

/-- C5: setting a native status string absent from the active `statusMap`
sets the canonical status to `UNKNOWN` and records a diagnostic; the
operation is a total function, so no exception reaches the caller. -/
theorem setNativeStatusStr_unmapped (s : JobStatus) (nat : String)
    (h : s.statusMap.lookup nat = none) :
    ((s.setNativeStatusStr nat).1.status = JobStatusValues.UNKNOWN
      ∧ (s.setNativeStatusStr nat).2.isSome = true) := by
  simp [JobStatus.setNativeStatusStr, JobStatus.mapNativeStatus, h]

/-- Witness for C5: against the default table, `"NODE_FAIL"` is unmapped, and
setting it yields canonical `UNKNOWN` plus a diagnostic. -/
theorem setNativeStatusStr_unmapped_witness :
    (JobStatus.init "job-1" none 0).statusMap.lookup "NODE_FAIL" = none
    ∧ ((JobStatus.init "job-1" none 0).setNativeStatusStr "NODE_FAIL").1.status
        = JobStatusValues.UNKNOWN
    ∧ ((JobStatus.init "job-1" none 0).setNativeStatusStr "NODE_FAIL").2.isSome = true :=
  ⟨by decide,
   (setNativeStatusStr_unmapped (JobStatus.init "job-1" none 0) "NODE_FAIL" (by decide)).1,
   (setNativeStatusStr_unmapped (JobStatus.init "job-1" none 0) "NODE_FAIL" (by decide)).2⟩

/-- C6: on a freshly constructed `JobStatus` (default status map), setting any
of the eight canonical names as the native status yields the canonical enum
value of the same name — the default table is the identity over the canonical
vocabulary. -/
theorem default_map_identity (newId : String) (octx : Option JobContext) (now : Int)
    (v : JobStatusValues) :
    ((JobStatus.init newId octx now).setNativeStatusStr v.value).1.status = v := by
  cases v <;> rfl

/-- C9: a freshly constructed `JobStatus` has canonical status `UNKNOWN`, hence
`isTerminal` is false, and its `jobContext` is the given context, or a fresh
seminal `JobContext` when none was given. -/
theorem jobStatus_init_fresh (newId : String) (octx : Option JobContext) (now : Int) :
    (JobStatus.init newId octx now).status = JobStatusValues.UNKNOWN
    ∧ (JobStatus.init newId octx now).isTerminal = false
    ∧ (JobStatus.init newId octx now).jobContext = octx.getD (JobContext.init newId none) :=
  ⟨rfl, rfl, rfl⟩

/-- C10: `getEmitTime` after `setEmitTime t` returns the instant `t` truncated
to millisecond precision (toward zero): the stored millisecond value
`Int.tdiv t 1000`, read back as whole milliseconds; likewise for
`setReceivedTime`/`getReceivedTime`. -/
theorem emit_received_time_roundtrip (s : JobStatus) (t now : Int) :
    (s.setEmitTime t).getEmitTime now = 1000 * Int.tdiv t 1000
    ∧ (s.setReceivedTime t).getReceivedTime = some (1000 * Int.tdiv t 1000) := by
  constructor
  · simp only [JobStatus.setEmitTime, JobStatus.getEmitTime]
    exact ediv_emod_millis (Int.tdiv t 1000)
  · simp only [JobStatus.setReceivedTime, JobStatus.getReceivedTime, Option.map_some]
    exact congrArg some (ediv_emod_millis (Int.tdiv t 1000))

/-- One primitive item of the serialized form.  `JobStatus.serialize`
(lines 374-377) pickles the object with protocol 0 and decodes the bytes as an
ASCII string; the stream is modelled as a flat sequence of typed tokens
carrying the primitive field values (a data-only view of the pickle frame). -/
inductive PickleToken where
  | str (s : String)
  | int (n : Int)
  | stat (v : JobStatusValues)
  | flag (b : Bool)
deriving DecidableEq, Repr

/-- Encode an optional string field (an attribute-bag key that may be absent). -/
def encodeOptStr : Option String → List PickleToken
  | none => [PickleToken.flag false]
  | some s => [PickleToken.flag true, PickleToken.str s]

/-- Encode an optional integer field. -/
def encodeOptInt : Option Int → List PickleToken
  | none => [PickleToken.flag false]
  | some n => [PickleToken.flag true, PickleToken.int n]

/-- Encode the entries of the native-to-canonical status map, in order. -/
def encodeStatusMap : List (String × JobStatusValues) → List PickleToken
  | [] => []
  | (k, v) :: rest => PickleToken.str k :: PickleToken.stat v :: encodeStatusMap rest

/-- Encode every field of a `JobContext`, in declaration order. -/
def encodeJobContext (c : JobContext) : List PickleToken :=
  [PickleToken.str c.id, PickleToken.str c.nativeId,
   PickleToken.str c.parentJobId, PickleToken.str c.originJobId]
    ++ encodeOptStr c.jobSetId
    ++ [PickleToken.str c.name, PickleToken.str c.siteName, PickleToken.str c.computeType]
    ++ encodeOptStr c.group
    ++ encodeOptStr c.user

/-- `JobStatus.serialize(self)` (lines 374-377): the pickled object carries every
field of the record — the referenced `JobContext`, the status map (length-prefixed,
preserving insertion order), the canonical and native statuses, both timestamps
and the native info. -/
def JobStatus.serialize (s : JobStatus) : List PickleToken :=
  encodeJobContext s.jobContext
    ++ PickleToken.int (s.statusMap.length : Int) :: encodeStatusMap s.statusMap
    ++ [PickleToken.stat s.status]
    ++ encodeOptStr s.nativeStatus
    ++ encodeOptInt s.emitTime
    ++ encodeOptInt s.receivedTime
    ++ encodeOptStr s.nativeInfo

/-- Parse one string token. -/
def takeStr : List PickleToken → Option (String × List PickleToken)
  | PickleToken.str s :: rest => some (s, rest)
  | _ => none

/-- Parse one integer token. -/
def takeInt : List PickleToken → Option (Int × List PickleToken)
  | PickleToken.int n :: rest => some (n, rest)
  | _ => none

/-- Parse one status-value token. -/
def takeStat : List PickleToken → Option (JobStatusValues × List PickleToken)
  | PickleToken.stat v :: rest => some (v, rest)
  | _ => none

/-- Parse an optional string field. -/
def takeOptStr : List PickleToken → Option (Option String × List PickleToken)
  | PickleToken.flag false :: rest => some (none, rest)
  | PickleToken.flag true :: PickleToken.str s :: rest => some (some s, rest)
  | _ => none

/-- Parse an optional integer field. -/
def takeOptInt : List PickleToken → Option (Option Int × List PickleToken)
  | PickleToken.flag false :: rest => some (none, rest)
  | PickleToken.flag true :: PickleToken.int n :: rest => some (some n, rest)
  | _ => none

/-- Parse `n` status-map entries. -/
def takeStatusMap : Nat → List PickleToken →
    Option (List (String × JobStatusValues) × List PickleToken)
  | 0, rest => some ([], rest)
  | n + 1, PickleToken.str k :: PickleToken.stat v :: rest =>
      match takeStatusMap n rest with
      | some (m, rest2) => some ((k, v) :: m, rest2)
      | none => none
  | _ + 1, _ => none

/-- Parse the fields of a `JobContext`, in declaration order. -/
def takeJobContext (ts : List PickleToken) : Option (JobContext × List PickleToken) := do
  let (i, ts) ← takeStr ts
  let (nid, ts) ← takeStr ts
  let (pid, ts) ← takeStr ts
  let (oid, ts) ← takeStr ts
  let (jsid, ts) ← takeOptStr ts
  let (nm, ts) ← takeStr ts
  let (sn, ts) ← takeStr ts
  let (ct, ts) ← takeStr ts
  let (g, ts) ← takeOptStr ts
  let (u, ts) ← takeOptStr ts
  pure (⟨i, nid, pid, oid, jsid, nm, sn, ct, g, u⟩, ts)

/-- `JobStatus.deserialize(s)` (lines 379-383): `json.dumps` followed by
`json.loads` is the identity on the string, so the operation unpickles the
serialized stream back into a record; the whole frame is consumed. -/
def JobStatus.deserialize (ts : List PickleToken) : Option JobStatus := do
  let (ctx, ts) ← takeJobContext ts
  let (len, ts) ← takeInt ts
  let (m, ts) ← takeStatusMap len.toNat ts
  let (st, ts) ← takeStat ts
  let (nst, ts) ← takeOptStr ts
  let (et, ts) ← takeOptInt ts
  let (rt, ts) ← takeOptInt ts
  let (ni, ts) ← takeOptStr ts
  match ts with
  | [] => pure ⟨ctx, m, st, nst, et, rt, ni⟩
  | _ => none

/-- Parsing an encoded optional string consumes exactly the encoding. -/
theorem takeOptStr_encode (o : Option String) (r : List PickleToken) :
    takeOptStr (encodeOptStr o ++ r) = some (o, r) := by
  cases o <;> rfl

/-- Parsing an encoded optional integer consumes exactly the encoding. -/
theorem takeOptInt_encode (o : Option Int) (r : List PickleToken) :
    takeOptInt (encodeOptInt o ++ r) = some (o, r) := by
  cases o <;> rfl

/-- Parsing an encoded optional string at the end of the stream. -/
theorem takeOptStr_encode_nil (o : Option String) :
    takeOptStr (encodeOptStr o) = some (o, []) := by
  cases o <;> rfl

/-- Parsing an encoded status map of the announced length restores the map. -/
theorem takeStatusMap_encode (m : List (String × JobStatusValues)) (r : List PickleToken) :
    takeStatusMap m.length (encodeStatusMap m ++ r) = some (m, r) := by
  induction m with
  | nil => rfl
  | cons hd tl ih =>
      obtain ⟨k, v⟩ := hd
      simp [encodeStatusMap, takeStatusMap, ih]

/-- Parsing an encoded `JobContext` restores every field. -/
theorem takeJobContext_encode (c : JobContext) (r : List PickleToken) :
    takeJobContext (encodeJobContext c ++ r) = some (c, r) := by
  obtain ⟨i, nid, pid, oid, jsid, nm, sn, ct, g, u⟩ := c
  simp only [encodeJobContext, List.cons_append, List.nil_append, List.append_assoc,
        takeJobContext, takeStr, takeOptStr_encode, Option.some_bind, Option.bind_eq_bind]
  rfl

/-- C8: serialize-then-deserialize is a round trip — the reconstructed
`JobStatus` equals the original in every field: canonical status, native
status, both stored timestamps, native info, the status map, and all
`JobContext` fields. -/
theorem serialize_deserialize_roundtrip (x : JobStatus) :
    JobStatus.deserialize x.serialize = some x := by
  obtain ⟨ctx, m, st, nst, et, rt, ni⟩ := x
  simp [JobStatus.serialize, JobStatus.deserialize, List.append_assoc,
        takeJobContext_encode, takeInt, takeStat, takeStatusMap_encode,
        takeOptStr_encode, takeOptInt_encode, takeOptStr_encode_nil]

/-- Modelled from the spec: the Sentinel's registered trigger (`EventHandler`,
§3) — the server-side Job Status Sentinel is not among the source files (only
its HTTP client `JobStatusSentinelClient.py` is), so the record follows the
spec's words: handler id, source job id and site, awaited canonical status and
the target site of the submission to fire.  The fire payload (`fireDefn`,
`targetContext`) plays no role in the firing discipline and is elided. -/
structure EventHandler where
  handlerId : String
  sourceJobId : String
  sourceSiteName : String
  awaitedStatus : JobStatusValues
  targetSiteName : String
deriving DecidableEq, Repr

/-- Modelled from the spec: a trigger fires on a report when the report's job id
equals its `sourceJobId` and the report's canonical status equals its
`awaitedStatus` (§4.4 steps 1-2). -/
def firesOn (t : EventHandler) (jobId : String) (st : JobStatusValues) : Bool :=
  t.sourceJobId == jobId && t.awaitedStatus == st

/-- Modelled from the spec: evaluation of one incoming status report against the
trigger registry (§4.4).  Every matching trigger fires — one dispatch each, in
registration order; a matching trigger whose awaited status is not `INFO` is
removed from the registry immediately after firing (one-shot), while `INFO`
triggers stay registered (repeatable).  Returns the dispatched triggers and the
registry after the evaluation pass. -/
def evalStatusReport (registry : List EventHandler) (jobId : String)
    (st : JobStatusValues) : List EventHandler × List EventHandler :=
  (registry.filter (fun t => firesOn t jobId st),
   registry.filter (fun t =>
     !(firesOn t jobId st && !(t.awaitedStatus == JobStatusValues.INFO))))

/-- C7: a trigger awaiting a status other than `INFO`, registered once, is
dispatched exactly once by the first matching report and removed from the
registry; any later report — in particular a redelivery of the same status for
the same job — dispatches it zero further times (one-shot, exactly-once). -/
theorem trigger_one_shot (reg : List EventHandler) (t : EventHandler)
    (hInfo : t.awaitedStatus ≠ JobStatusValues.INFO)
    (hreg : reg.count t = 1) :
    (evalStatusReport reg t.sourceJobId t.awaitedStatus).1.count t = 1
    ∧ (evalStatusReport reg t.sourceJobId t.awaitedStatus).2.count t = 0
    ∧ ∀ (jid : String) (st2 : JobStatusValues),
        (evalStatusReport (evalStatusReport reg t.sourceJobId t.awaitedStatus).2
            jid st2).1.count t = 0 := by
  have hfire : firesOn t t.sourceJobId t.awaitedStatus = true := by
    simp [firesOn]
  have hrm : (evalStatusReport reg t.sourceJobId t.awaitedStatus).2.count t = 0 := by
    rw [List.count_eq_zero]
    intro hmem
    have h2 := (List.mem_filter.mp hmem).2
    simp [firesOn, hInfo] at h2
  refine ⟨?_, hrm, ?_⟩
  · rw [← hreg, List.count_eq_countP, List.count_eq_countP]
    simp only [evalStatusReport]
    rw [List.countP_filter]
    apply List.countP_congr
    intro x hx
    simp only [Bool.and_eq_true, beq_iff_eq, and_iff_left_iff_imp]
    intro hxt
    subst hxt
    exact hfire
  · intro jid st2
    have hnot : t ∉ (evalStatusReport reg t.sourceJobId t.awaitedStatus).2 :=
      List.count_eq_zero.mp hrm
    rw [List.count_eq_zero]
    intro hmem
    exact hnot (List.mem_filter.mp hmem).1

/-- Witness for C7: a concrete `COMPLETE` trigger on job `A`, alone in the
registry, fires exactly once on the first `COMPLETE` report for `A`, is
removed, and a second identical report dispatches nothing. -/
theorem trigger_one_shot_witness :
    (EventHandler.mk "h1" "A" "siteA" JobStatusValues.COMPLETE "siteB").awaitedStatus
        ≠ JobStatusValues.INFO
    ∧ [EventHandler.mk "h1" "A" "siteA" JobStatusValues.COMPLETE "siteB"].count
        (EventHandler.mk "h1" "A" "siteA" JobStatusValues.COMPLETE "siteB") = 1
    ∧ (evalStatusReport [EventHandler.mk "h1" "A" "siteA" JobStatusValues.COMPLETE "siteB"]
        "A" JobStatusValues.COMPLETE).1.count
        (EventHandler.mk "h1" "A" "siteA" JobStatusValues.COMPLETE "siteB") = 1
    ∧ (evalStatusReport [EventHandler.mk "h1" "A" "siteA" JobStatusValues.COMPLETE "siteB"]
        "A" JobStatusValues.COMPLETE).2.count
        (EventHandler.mk "h1" "A" "siteA" JobStatusValues.COMPLETE "siteB") = 0
    ∧ (evalStatusReport
        (evalStatusReport [EventHandler.mk "h1" "A" "siteA" JobStatusValues.COMPLETE "siteB"]
          "A" JobStatusValues.COMPLETE).2 "A" JobStatusValues.COMPLETE).1.count
        (EventHandler.mk "h1" "A" "siteA" JobStatusValues.COMPLETE "siteB") = 0 :=
  ⟨by decide, by decide,
   (trigger_one_shot _ _ (by decide) (by decide)).1,
   (trigger_one_shot _ _ (by decide) (by decide)).2.1,
   (trigger_one_shot _ _ (by decide) (by decide)).2.2 "A" JobStatusValues.COMPLETE⟩
